import Mathlib

/-!
Verification of the temperature-conversion CLI (`src/converterr.py`).

The embedding is exact-arithmetic: Python 64-bit floats are modelled by the
type `PyFloat` below, whose finite values are rationals (`ℚ`).  The spec's
round-trip law is stated "exact over the exact-arithmetic embedding", which
this shallow embedding realises.  Python's `float(...)` / `int(...)` string
conversions are modelled on plain decimal literals and the special words
`inf` / `infinity` / `nan` (surrounding whitespace and `_` digit separators
of Python literals are not modelled; no claim concerns them).

The argparse configuration of `parse_arguments` (a required mutually
exclusive group `-c, --celsius` | `-f, --fahrenheit`, both `type=float`, and
`-p, --precision` with `type=int`, `default=2`, `choices=range(0, 6)`) is
modelled by `parseLoop` below, including `--opt=value` and `-cVALUE`
attached-argument forms, unambiguous long-option abbreviation, and
argparse's token classification (a token starting with `-` can only be
consumed as an option argument when it looks like a negative number or
contains a space).  The `--` end-of-options separator is not modelled; no
claim concerns it.
-/

namespace Converterr

/-- A Python float value: a finite rational, or one of the three
non-finite IEEE values. -/
inductive PyFloat where
  | finite (q : ℚ)
  | inf
  | negInf
  | nan
deriving DecidableEq

/-- Negation of a Python float (`float("-nan")` is `nan`). -/
def PyFloat.neg : PyFloat → PyFloat
  | .finite q => .finite (-q)
  | .inf => .negInf
  | .negInf => .inf
  | .nan => .nan

/-- `celsius_to_fahrenheit` from `src/converterr.py` line 21:
`return (celsius * 9/5) + 32`, on finite values. -/
def celsius_to_fahrenheit (celsius : ℚ) : ℚ :=
  celsius * 9 / 5 + 32

/-- `fahrenheit_to_celsius` from `src/converterr.py` line 33:
`return (fahrenheit - 32) * 5/9`, on finite values. -/
def fahrenheit_to_celsius (fahrenheit : ℚ) : ℚ :=
  (fahrenheit - 32) * 5 / 9

/-- `celsius_to_fahrenheit` lifted to Python floats: IEEE arithmetic sends
`inf * 9 / 5 + 32` to `inf`, `-inf` to `-inf`, and propagates `nan`. -/
def celsiusToFahrenheitPy : PyFloat → PyFloat
  | .finite q => .finite (celsius_to_fahrenheit q)
  | .inf => .inf
  | .negInf => .negInf
  | .nan => .nan

/-- `fahrenheit_to_celsius` lifted to Python floats. -/
def fahrenheitToCelsiusPy : PyFloat → PyFloat
  | .finite q => .finite (fahrenheit_to_celsius q)
  | .inf => .inf
  | .negInf => .negInf
  | .nan => .nan

/-- Is every character a decimal digit? -/
def allDigits (cs : List Char) : Bool :=
  cs.all Char.isDigit

/-- Numeric value of a list of decimal digits (most significant first);
the empty list counts as 0. -/
def digitsVal0 (cs : List Char) : ℕ :=
  cs.foldl (fun a c => a * 10 + (c.toNat - 48)) 0

/-- Numeric value of a nonempty all-digit list; `none` otherwise. -/
def digitsToNat (cs : List Char) : Option ℕ :=
  if !cs.isEmpty && allDigits cs then some (digitsVal0 cs) else none

/-- Signed decimal integer literal on a character list: an optional sign
followed by a nonempty digit string. -/
def parsePyIntL : List Char → Option ℤ
  | [] => none
  | c :: cs =>
    if c = '-' then (digitsToNat cs).map (fun n => -(Int.ofNat n))
    else if c = '+' then (digitsToNat cs).map (fun n => Int.ofNat n)
    else (digitsToNat (c :: cs)).map (fun n => Int.ofNat n)

/-- Python's `int(s)` on plain decimal literals. -/
def parsePyInt (s : String) : Option ℤ :=
  parsePyIntL s.data

/-- Exponent part of a float literal: optional sign, nonempty digits. -/
def parseExpInt (cs : List Char) : Option ℤ :=
  match cs with
  | [] => none
  | c :: rest =>
    if c = '-' then (digitsToNat rest).map (fun n => -(Int.ofNat n))
    else if c = '+' then (digitsToNat rest).map (fun n => Int.ofNat n)
    else (digitsToNat (c :: rest)).map (fun n => Int.ofNat n)

/-- Mantissa of a float literal: `digits`, `digits.digits`, `digits.` or
`.digits`, with at least one digit present. -/
def parseMantissa (cs : List Char) : Option ℚ :=
  let sp := cs.span Char.isDigit
  match sp.2 with
  | [] => (digitsToNat sp.1).map (fun n => (n : ℚ))
  | c :: fp =>
    if c = '.' && allDigits fp && !(sp.1.isEmpty && fp.isEmpty) then
      some ((digitsVal0 (sp.1 ++ fp) : ℚ) / 10 ^ fp.length)
    else none

/-- Decimal float literal: mantissa with optional `e`/`E` exponent. -/
def parseDecimal (cs : List Char) : Option ℚ :=
  let ms := cs.span (fun c => !(c = 'e' || c = 'E'))
  match ms.2 with
  | [] => parseMantissa ms.1
  | _ :: ecs =>
    match parseMantissa ms.1, parseExpInt ecs with
    | some m, some e => some (m * (10 : ℚ) ^ e)
    | _, _ => none

/-- Unsigned part of Python's `float(s)`: `inf`, `infinity`, `nan`
(case-insensitive) or a decimal literal. -/
def parseUnsigned (cs : List Char) : Option PyFloat :=
  let low := cs.map Char.toLower
  if low = "inf".data || low = "infinity".data then some PyFloat.inf
  else if low = "nan".data then some PyFloat.nan
  else (parseDecimal cs).map PyFloat.finite

/-- Python's `float(s)` (argparse `type=float`) on plain literals. -/
def parsePyFloat (s : String) : Option PyFloat :=
  match s.data with
  | [] => none
  | c :: cs =>
    if c = '-' then (parseUnsigned cs).map PyFloat.neg
    else if c = '+' then parseUnsigned cs
    else parseUnsigned (c :: cs)

/-- The parsed namespace of `parse_arguments`: `args.celsius` and
`args.fahrenheit` (`None` unless supplied, argparse `type=float`) and
`args.precision` (argparse `type=int`, `default=2`). -/
structure Args where
  celsius : Option PyFloat := none
  fahrenheit : Option PyFloat := none
  precision : ℤ := 2
deriving DecidableEq

/-- Result of `parse_arguments`: a parsed namespace, a usage error
(argparse prints usage + message to stderr and exits 2), or the `--help`
path (argparse prints help and exits 0). -/
inductive ParseResult where
  | ok (args : Args)
  | usageError (msg : String)
  | helpRequested
deriving DecidableEq

/-- The three value-taking options of the parser. -/
inductive OptKind where
  | celsius
  | fahrenheit
  | precision
deriving DecidableEq

/-- An option action: `-h, --help`, or storing one of the three values. -/
inductive OptAction where
  | help
  | store (k : OptKind)
deriving DecidableEq

/-- The combined short-and-long option name argparse uses in error
messages. -/
def optName : OptKind → String
  | .celsius => "-c/--celsius"
  | .fahrenheit => "-f/--fahrenheit"
  | .precision => "-p/--precision"

/-- Exact option-string table of the parser. -/
def optOfString (s : String) : Option OptKind :=
  if s = "-c" || s = "--celsius" then some .celsius
  else if s = "-f" || s = "--fahrenheit" then some .fahrenheit
  else if s = "-p" || s = "--precision" then some .precision
  else none

/-- Is `small` an initial segment of `big`? -/
def isPre : List Char → List Char → Bool
  | [], _ => true
  | _, [] => false
  | c :: cs, d :: ds => c = d && isPre cs ds

/-- Look up an option token: exact match first, then argparse's
unambiguous long-option abbreviation (all four long options of this
parser start with distinct letters, so every proper initial segment is
unambiguous). -/
def optLookup (s : String) : Option OptAction :=
  if s = "-h" || s = "--help" then some .help
  else
    match optOfString s with
    | some k => some (.store k)
    | none =>
      match s.data with
      | c :: c1 :: rest =>
        if c = '-' && c1 = '-' && !rest.isEmpty then
          if isPre rest "celsius".data then some (.store .celsius)
          else if isPre rest "fahrenheit".data then some (.store .fahrenheit)
          else if isPre rest "precision".data then some (.store .precision)
          else if isPre rest "help".data then some .help
          else none
        else none
      | _ => none

/-- Split a character list at its first `=`, as argparse does for
`--option=value` (and `-o=value`) tokens. -/
def splitEq : List Char → Option (List Char × List Char)
  | [] => none
  | c :: rest =>
    if c = '=' then some ([], rest)
    else
      match splitEq rest with
      | none => none
      | some (a, b) => some (c :: a, b)

/-- argparse's `_negative_number_matcher` on a character list: `-`
followed by digits, or by optional digits, `.`, and at least one digit. -/
def negNumL : List Char → Bool
  | [] => false
  | c :: cs =>
    c = '-' &&
      ((!cs.isEmpty && allDigits cs) ||
        (match cs.span Char.isDigit with
         | (_, c2 :: fp) => c2 = '.' && !fp.isEmpty && allDigits fp
         | _ => false))

/-- argparse's `_negative_number_matcher`.  Since this parser has no
option strings that look like negative numbers, such tokens are
classified as values, not options. -/
def looksLikeNegNum (s : String) : Bool :=
  negNumL s.data

/-- Option-likeness on a character list: length at least 2, starts with
`-`, not negative-number-like, and without a space. -/
def optionLikeL : List Char → Bool
  | c :: c1 :: rest =>
    c = '-' && !negNumL (c :: c1 :: rest) && !(c :: c1 :: rest).contains ' '
  | _ => false

/-- argparse token classification used when consuming option arguments: a
token of length at least 2 that starts with `-` is option-like (so cannot
be consumed as a value) unless it looks like a negative number or
contains a space. -/
def optionLike (s : String) : Bool :=
  optionLikeL s.data

/-- How the loop treats one leading token. -/
inductive TokClass where
  | help
  | opt (k : OptKind) (explicitArg : Option String)
  | unrecognized
  | positional
deriving DecidableEq

/-- Tokens that match no option: negative-number-like or space-containing
tokens count as positionals (this parser declares none, so both ways the
invocation is a usage error, matching argparse's `unrecognized
arguments`). -/
def fallbackClass (tok : String) : TokClass :=
  if looksLikeNegNum tok || tok.data.contains ' ' then .positional
  else .unrecognized

/-- Classify a token in option position: exact or abbreviated option
names, `--option=value` splitting, `-cVALUE` attached short-option
values, and argparse's negative-number / space rules. -/
def classifyTok (tok : String) : TokClass :=
  match optLookup tok with
  | some .help => .help
  | some (.store k) => .opt k none
  | none =>
    match splitEq tok.data with
    | some (pre, suf) =>
      match optLookup (String.mk pre) with
      | some (.store k) => .opt k (some (String.mk suf))
      | some .help => .unrecognized
      | none => .positional
    | none =>
      match tok.data with
      | c :: c1 :: rest =>
        if c = '-' then
          if !rest.isEmpty then
            match optOfString (String.mk [c, c1]) with
            | some k => .opt k (some (String.mk rest))
            | none => fallbackClass tok
          else fallbackClass tok
        else .positional
      | _ => .positional

/-- Apply one stored option, mirroring argparse's `take_action`: value
conversion (`type=float` / `type=int`) and the `choices=range(0, 6)`
check happen first, then the mutually-exclusive-group conflict check,
then the namespace update. -/
def applyOpt (st : Args) : OptKind → String → Except String Args
  | .celsius, v =>
    match parsePyFloat v with
    | none => .error ("argument -c/--celsius: invalid float value: " ++ v)
    | some x =>
      if st.fahrenheit.isSome then
        .error "argument -c/--celsius: not allowed with argument -f/--fahrenheit"
      else .ok { st with celsius := some x }
  | .fahrenheit, v =>
    match parsePyFloat v with
    | none => .error ("argument -f/--fahrenheit: invalid float value: " ++ v)
    | some x =>
      if st.celsius.isSome then
        .error "argument -f/--fahrenheit: not allowed with argument -c/--celsius"
      else .ok { st with fahrenheit := some x }
  | .precision, v =>
    match parsePyInt v with
    | none => .error ("argument -p/--precision: invalid int value: " ++ v)
    | some n =>
      if 0 ≤ n ∧ n ≤ 5 then .ok { st with precision := n }
      else .error ("argument -p/--precision: invalid choice: " ++ v)

/-- The argument-consumption loop of `parser.parse_args()`: left to
right, each option consumes its attached (`--opt=value`, `-oVALUE`) or
following value token; at the end the required mutually exclusive group
must have been seen. -/
def parseLoop (st : Args) : List String → ParseResult
  | [] =>
    if st.celsius = none ∧ st.fahrenheit = none then
      .usageError "one of the arguments -c/--celsius -f/--fahrenheit is required"
    else .ok st
  | tok :: rest =>
    match classifyTok tok with
    | .help => .helpRequested
    | .unrecognized => .usageError ("unrecognized arguments: " ++ tok)
    | .positional => .usageError ("unrecognized arguments: " ++ tok)
    | .opt k none =>
      match rest with
      | [] => .usageError ("argument " ++ optName k ++ ": expected one argument")
      | v :: rest2 =>
        if optionLike v = true then
          .usageError ("argument " ++ optName k ++ ": expected one argument")
        else
          match applyOpt st k v with
          | .error m => .usageError m
          | .ok st2 => parseLoop st2 rest2
    | .opt k (some v) =>
      match applyOpt st k v with
      | .error m => .usageError m
      | .ok st2 => parseLoop st2 rest

/-- `parse_arguments` from `src/converterr.py` lines 36-73, as a function
of the process argument list (`sys.argv[1:]`). -/
def parse_arguments (argv : List String) : ParseResult :=
  parseLoop {} argv

/-- The `p` decimal digits of a fraction value `n < 10 ^ p`, most
significant first, zero-padded to exactly `p` characters. -/
def fracDigits : ℕ → ℕ → List Char
  | 0, _ => []
  | p + 1, n => fracDigits p (n / 10) ++ [Nat.digitChar (n % 10)]

/-- Floor of a rational (the denominator is positive, so flooring integer
division of numerator by denominator). -/
def ratFloor (x : ℚ) : ℤ :=
  Int.fdiv x.num (x.den : ℤ)

/-- Round a nonnegative rational to the nearest integer, ties to even —
the rounding Python's fixed-point float formatting performs on the exact
value of the formatted double. -/
def roundHalfEven (x : ℚ) : ℤ :=
  let fl : ℤ := ratFloor x
  let r : ℚ := x - (fl : ℚ)
  if r < 1 / 2 then fl
  else if 1 / 2 < r then fl + 1
  else if fl % 2 = 0 then fl else fl + 1

/-- Python's fixed-point format `f"{q:.{p}f}"` on an exact (finite)
value: sign, integer part, and, when `p > 0`, a point followed by exactly
`p` fraction digits. -/
def formatFixed (q : ℚ) (p : ℕ) : String :=
  let a : ℚ := if q < 0 then -q else q
  let n : ℕ := (roundHalfEven (a * 10 ^ p)).toNat
  let whole : ℕ := n / 10 ^ p
  let frac : ℕ := n % 10 ^ p
  (if q < 0 then "-" else "") ++ Nat.repr whole ++
    (if p = 0 then "" else "." ++ String.mk (fracDigits p frac))

/-- `f"{v:.{p}f}"` on a Python float: non-finite values format as `inf`,
`-inf`, `nan`. -/
def pyFormatFixed : PyFloat → ℕ → String
  | .finite q, p => formatFixed q p
  | .inf, _ => "inf"
  | .negInf, _ => "-inf"
  | .nan, _ => "nan"

/-- `format_output` from `src/converterr.py` lines 76-89:
the f-string on line 89. -/
def format_output (original converted : PyFloat) (unit_from unit_to : String)
    (precision : ℕ) : String :=
  pyFormatFixed original precision ++ "°" ++ unit_from ++ " = " ++
    pyFormatFixed converted precision ++ "°" ++ unit_to

/-- The two exception kinds `main` handles (lines 110-115). -/
inductive PyExc where
  | valueError (msg : String)
  | keyboardInterrupt
deriving DecidableEq

/-- The dispatch of `main` (lines 97-106): `if args.celsius is not None`
selects the Celsius branch (an `is not None` test, not truthiness), else
the Fahrenheit branch.  The double-`none` case cannot arise from
`parse_arguments` (required mutually exclusive group); the model returns
`""` there. -/
def dispatch (args : Args) : String :=
  match args.celsius with
  | some v => format_output v (celsiusToFahrenheitPy v) "C" "F" args.precision.toNat
  | none =>
    match args.fahrenheit with
    | some v => format_output v (fahrenheitToCelsiusPy v) "F" "C" args.precision.toNat
    | none => ""

/-- The try-block body of `main` after a successful parse: conversion and
formatting.  Both are total over the embedding, so it always returns the
output line and never raises. -/
def mainBody (args : Args) : Except PyExc String :=
  .ok (dispatch args)

/-- The exception handlers of `main` (lines 110-115), mapping the body's
outcome to the printed line and the exit status: `except ValueError`
prints `Error: <e>` and exits 1; `except KeyboardInterrupt` prints a
newline plus the cancellation notice and exits 0. -/
def handleExc : Except PyExc String → String × ℕ
  | .ok s => (s, 0)
  | .error (.valueError m) => ("Error: " ++ m, 1)
  | .error .keyboardInterrupt => ("\nOperation cancelled by user", 0)

/-- Abridged argparse help text (printed on `--help`, exit 0). -/
def helpText : String :=
  "usage: temp_converter [-h] (-c TEMPERATURE | -f TEMPERATURE) [-p DIGITS]"

/-- End-to-end model of `main` (lines 92-115): the printed line and the
process exit status for a given argument list.  Usage errors exit 2 (the
argparse default), help exits 0. -/
def runMain (argv : List String) : String × ℕ :=
  match parse_arguments argv with
  | .ok args => handleExc (mainBody args)
  | .usageError m => ("temp_converter: error: " ++ m, 2)
  | .helpRequested => (helpText, 0)

/-- Invariant maintained by the argument loop: the two mutually exclusive
destinations are never both set, and the precision stays in the validated
range `[0, 5]` (it starts at the default 2). -/
def StInv (st : Args) : Prop :=
  (st.celsius = none ∨ st.fahrenheit = none) ∧ 0 ≤ st.precision ∧ st.precision ≤ 5

end Converterr

example : Converterr.formatFixed 77 2 = "77.00" := by with_unfolding_all decide
example : Converterr.formatFixed 0 2 = "0.00" := by with_unfolding_all decide
example : Converterr.formatFixed (-5) 0 = "-5" := by with_unfolding_all decide
example : Converterr.formatFixed (37 : ℚ) 1 = "37.0" := by
  with_unfolding_all decide
example : Converterr.formatFixed (1 / 8 : ℚ) 2 = "0.12" := by
  with_unfolding_all decide
example : Converterr.formatFixed (3 / 8 : ℚ) 2 = "0.38" := by
  with_unfolding_all decide
example : Converterr.runMain ["-c", "25"] = ("25.00°C = 77.00°F", 0) := by
  with_unfolding_all decide
example : Converterr.runMain ["-f", "98.6", "-p", "1"] = ("98.6°F = 37.0°C", 0) := by
  with_unfolding_all decide
example : Converterr.runMain ["-c", "0.0"] = ("0.00°C = 32.00°F", 0) := by
  with_unfolding_all decide
example : Converterr.runMain ["-c", "inf"] = ("inf°C = inf°F", 0) := by
  with_unfolding_all decide

namespace Converterr

theorem applyOpt_inv {st st2 : Args} {k : OptKind} {v : String}
    (hinv : StInv st) (h : applyOpt st k v = .ok st2) : StInv st2 := by
  obtain ⟨hx, h0, h5⟩ := hinv
  cases k with
  | celsius =>
    simp only [applyOpt] at h
    cases hp : parsePyFloat v <;> rw [hp] at h
    · simp at h
    · simp only [] at h
      split at h
      · simp at h
      · next hf =>
        injection h with h2
        subst h2
        exact ⟨Or.inr (Option.not_isSome_iff_eq_none.mp hf), h0, h5⟩
  | fahrenheit =>
    simp only [applyOpt] at h
    cases hp : parsePyFloat v <;> rw [hp] at h
    · simp at h
    · simp only [] at h
      split at h
      · simp at h
      · next hf =>
        injection h with h2
        subst h2
        exact ⟨Or.inl (Option.not_isSome_iff_eq_none.mp hf), h0, h5⟩
  | precision =>
    simp only [applyOpt] at h
    cases hp : parsePyInt v <;> rw [hp] at h
    · simp at h
    · simp only [] at h
      split at h
      · next hr =>
        injection h with h2
        subst h2
        exact ⟨hx, hr.1, hr.2⟩
      · simp at h

theorem parseLoop_nil_ok {st args : Args} (hinv : StInv st)
    (h : parseLoop st [] = .ok args) :
    StInv args ∧ (args.celsius ≠ none ∨ args.fahrenheit ≠ none) := by
  unfold parseLoop at h
  split at h
  · simp at h
  · next hne =>
    injection h with h2
    subst h2
    exact ⟨hinv, by tauto⟩

theorem parseLoop_ok_inv :
    ∀ (n : ℕ) (l : List String) (st args : Args), l.length ≤ n → StInv st →
      parseLoop st l = .ok args →
      StInv args ∧ (args.celsius ≠ none ∨ args.fahrenheit ≠ none) := by
  intro n
  induction n with
  | zero =>
    intro l st args hlen hinv h
    have hl : l = [] := List.eq_nil_of_length_eq_zero (Nat.le_zero.mp hlen)
    subst hl
    exact parseLoop_nil_ok hinv h
  | succ n ih =>
    intro l st args hlen hinv h
    cases l with
    | nil => exact parseLoop_nil_ok hinv h
    | cons tok rest =>
      unfold parseLoop at h
      split at h
      · simp at h
      · simp at h
      · simp at h
      · -- option token taking the following value token
        split at h
        · simp at h
        · split at h
          · simp at h
          · split at h
            · simp at h
            · rename_i st2 hap
              refine ih _ st2 args ?_ (applyOpt_inv hinv hap) h
              simp only [List.length_cons] at hlen
              omega
      · -- option token with attached explicit argument
        split at h
        · simp at h
        · rename_i st2 hap
          refine ih _ st2 args ?_ (applyOpt_inv hinv hap) h
          simp only [List.length_cons] at hlen
          omega

theorem digitsToNat_some {cs : List Char} {n : ℕ} (h : digitsToNat cs = some n) :
    cs.isEmpty = false ∧ allDigits cs = true := by
  unfold digitsToNat at h
  split at h
  · next hc =>
    rw [Bool.and_eq_true, Bool.not_eq_true'] at hc
    exact hc
  · simp at h

theorem parsePyInt_not_optionLike {d : String} {n : ℤ} (h : parsePyInt d = some n) :
    optionLike d = false := by
  unfold parsePyInt at h
  unfold optionLike
  rcases hcs : d.data with _ | ⟨c, rest⟩ <;> rw [hcs] at h
  · simp [parsePyIntL] at h
  · simp only [parsePyIntL] at h
    by_cases hc : c = '-'
    · subst hc
      rw [if_pos rfl] at h
      rcases Option.map_eq_some'.mp h with ⟨m, hm, -⟩
      obtain ⟨hne, hall⟩ := digitsToNat_some hm
      rcases rest with _ | ⟨r, rs⟩
      · simp at hne
      · simp [optionLikeL, negNumL, hall]
    · rcases rest with _ | ⟨r, rs⟩
      · rfl
      · simp [optionLikeL, hc]

theorem parseLoop_consume_ok {st st2 : Args} {k : OptKind} {tok v : String}
    {rest2 : List String} (hct : classifyTok tok = .opt k none)
    (hv : optionLike v = false) (ha : applyOpt st k v = .ok st2) :
    parseLoop st (tok :: v :: rest2) = parseLoop st2 rest2 := by
  conv_lhs => unfold parseLoop
  rw [hct]
  simp [hv, ha]

theorem parseLoop_nil_done {st : Args}
    (hne : ¬(st.celsius = none ∧ st.fahrenheit = none)) :
    parseLoop st [] = .ok st := by
  unfold parseLoop
  rw [if_neg hne]

theorem fracDigits_length (p : ℕ) : ∀ n : ℕ, (fracDigits p n).length = p := by
  induction p with
  | zero => intro n; rfl
  | succ p ih => intro n; simp [fracDigits, ih]

theorem string_mk_length (l : List Char) : (String.mk l).length = l.length := rfl

/-- C1: for every finite float `c`, `celsius_to_fahrenheit c` returns
`c * 9/5 + 32` exactly — no rounding happens before final display, since
the returned value is the exact rational. -/
theorem c1_celsius_formula :
    (∀ c : ℚ, celsius_to_fahrenheit c = c * (9 / 5) + 32) ∧
    (∀ c : ℚ, celsiusToFahrenheitPy (.finite c) = .finite (c * (9 / 5) + 32)) := by
  have h : ∀ c : ℚ, celsius_to_fahrenheit c = c * (9 / 5) + 32 := by
    intro c
    unfold celsius_to_fahrenheit
    ring
  refine ⟨h, fun c => ?_⟩
  show PyFloat.finite (celsius_to_fahrenheit c) = PyFloat.finite (c * (9 / 5) + 32)
  rw [h c]

/-- C2: for every finite float `f`, `fahrenheit_to_celsius f` returns
`(f - 32) * 5/9` exactly — no rounding before final display. -/
theorem c2_fahrenheit_formula :
    (∀ f : ℚ, fahrenheit_to_celsius f = (f - 32) * (5 / 9)) ∧
    (∀ f : ℚ, fahrenheitToCelsiusPy (.finite f) = .finite ((f - 32) * (5 / 9))) := by
  have h : ∀ f : ℚ, fahrenheit_to_celsius f = (f - 32) * (5 / 9) := by
    intro f
    unfold fahrenheit_to_celsius
    ring
  refine ⟨h, fun f => ?_⟩
  show PyFloat.finite (fahrenheit_to_celsius f) = PyFloat.finite ((f - 32) * (5 / 9))
  rw [h f]

/-- C3: the round-trip law — for every finite float `c`,
`fahrenheit_to_celsius (celsius_to_fahrenheit c) = c`, exactly over the
exact-arithmetic embedding. -/
theorem c3_roundtrip :
    (∀ c : ℚ, fahrenheit_to_celsius (celsius_to_fahrenheit c) = c) ∧
    (∀ c : ℚ, fahrenheitToCelsiusPy (celsiusToFahrenheitPy (.finite c)) = .finite c) := by
  have h : ∀ c : ℚ, fahrenheit_to_celsius (celsius_to_fahrenheit c) = c := by
    intro c
    unfold fahrenheit_to_celsius celsius_to_fahrenheit
    ring
  refine ⟨h, fun c => ?_⟩
  show PyFloat.finite (fahrenheit_to_celsius (celsius_to_fahrenheit c)) = PyFloat.finite c
  rw [h c]

/-- C4: the printed result is exactly
`<original>°<unitFrom> = <converted>°<unitTo>`, both numbers rendered
with exactly `precision` digits after the decimal point (shown here for
every positive precision) and no surrounding whitespace; in particular
`-c 25` at the default precision prints `25.00°C = 77.00°F` and exits 0. -/
theorem c4_output_format :
    runMain ["-c", "25"] = ("25.00°C = 77.00°F", 0) ∧
    (∀ (o c : PyFloat) (uf ut : String) (p : ℕ),
      format_output o c uf ut p =
        pyFormatFixed o p ++ "°" ++ uf ++ " = " ++ pyFormatFixed c p ++ "°" ++ ut) ∧
    (∀ (q : ℚ) (p : ℕ), ∃ intPart fracPart : String,
      formatFixed q (p + 1) = intPart ++ "." ++ fracPart ∧
        fracPart.length = p + 1) := by
  refine ⟨by with_unfolding_all decide, fun o c uf ut p => rfl, fun q p => ?_⟩
  refine ⟨(if q < 0 then "-" else "") ++
      Nat.repr ((roundHalfEven ((if q < 0 then -q else q) * 10 ^ (p + 1))).toNat / 10 ^ (p + 1)),
    String.mk (fracDigits (p + 1)
      ((roundHalfEven ((if q < 0 then -q else q) * 10 ^ (p + 1))).toNat % 10 ^ (p + 1))),
    ?_, ?_⟩
  · show formatFixed q (p + 1) = _
    unfold formatFixed
    simp only [Nat.succ_ne_zero, if_false, String.append_assoc]
  · rw [string_mk_length, fracDigits_length]

/-- C8: on `KeyboardInterrupt` the handler prints the cancellation notice
`Operation cancelled by user` (after the newline `print("\n...")` emits)
and the process exits with status 0. -/
theorem c8_keyboard_interrupt :
    handleExc (.error .keyboardInterrupt) = ("\nOperation cancelled by user", 0) :=
  rfl

/-- C9: `main` tests `args.celsius is not None`, so the falsy value `0.0`
supplied via `-c` is dispatched as a Celsius-to-Fahrenheit request and
prints `0.00°C = 32.00°F` at the default precision. -/
theorem c9_zero_dispatch :
    runMain ["-c", "0.0"] = ("0.00°C = 32.00°F", 0) ∧
    parse_arguments ["-c", "0.0"] =
      .ok { celsius := some (.finite 0), fahrenheit := none, precision := 2 } ∧
    dispatch { celsius := some (.finite 0), fahrenheit := none, precision := 2 } =
      "0.00°C = 32.00°F" := by
  refine ⟨?_, ?_, ?_⟩
  · with_unfolding_all decide
  · with_unfolding_all decide
  · with_unfolding_all decide

/-- C5: a successful parse has exactly one of the mutually exclusive
destinations set; supplying both `-c` and `-f`, or neither, is a usage
error with exit status 2 and no conversion output. -/
theorem c5_mutually_exclusive :
    (∀ (argv : List String) (args : Args), parse_arguments argv = .ok args →
      (args.celsius ≠ none ↔ args.fahrenheit = none)) ∧
    parse_arguments ["-c", "25", "-f", "10"] =
      .usageError "argument -f/--fahrenheit: not allowed with argument -c/--celsius" ∧
    parse_arguments [] =
      .usageError "one of the arguments -c/--celsius -f/--fahrenheit is required" ∧
    (runMain ["-c", "25", "-f", "10"]).2 = 2 ∧ (runMain []).2 = 2 := by
  refine ⟨?_, ?_, ?_, ?_, ?_⟩
  · intro argv args h
    obtain ⟨⟨hor, -, -⟩, hone⟩ :=
      parseLoop_ok_inv argv.length argv {} args le_rfl
        ⟨Or.inl rfl, by decide, by decide⟩ h
    constructor
    · intro hc
      rcases hor with h1 | h2
      · exact absurd h1 hc
      · exact h2
    · intro hf
      rcases hone with h1 | h2
      · exact h1
      · exact absurd hf h2
  · with_unfolding_all decide
  · with_unfolding_all decide
  · with_unfolding_all decide
  · with_unfolding_all decide

theorem c5_mutually_exclusive_witness :
    (({ celsius := some (.finite 25), fahrenheit := none, precision := 2 } : Args).celsius
        ≠ none ↔
      ({ celsius := some (.finite 25), fahrenheit := none, precision := 2 } : Args).fahrenheit
        = none) :=
  c5_mutually_exclusive.1 ["-c", "25"]
    { celsius := some (.finite 25), fahrenheit := none, precision := 2 }
    (by with_unfolding_all decide)

/-- C6: a supplied precision is accepted exactly when it parses as an
integer in `[0, 5]` (6, -1 and non-integers are usage errors), and an
accepted parse always carries a precision in `[0, 5]`, defaulting to 2
when `-p` is not supplied. -/
theorem c6_precision_range :
    (∀ (argv : List String) (args : Args), parse_arguments argv = .ok args →
      0 ≤ args.precision ∧ args.precision ≤ 5) ∧
    (∀ (d : String) (n : ℤ), parsePyInt d = some n → 0 ≤ n → n ≤ 5 →
      parse_arguments ["-c", "25", "-p", d] =
        .ok { celsius := some (.finite 25), fahrenheit := none, precision := n }) ∧
    parse_arguments ["-c", "25"] =
      .ok { celsius := some (.finite 25), fahrenheit := none, precision := 2 } ∧
    parse_arguments ["-c", "25", "-p", "6"] =
      .usageError "argument -p/--precision: invalid choice: 6" ∧
    parse_arguments ["-c", "25", "-p", "-1"] =
      .usageError "argument -p/--precision: invalid choice: -1" ∧
    parse_arguments ["-c", "25", "-p", "abc"] =
      .usageError "argument -p/--precision: invalid int value: abc" := by
  refine ⟨?_, ?_, ?_, ?_, ?_, ?_⟩
  · intro argv args h
    obtain ⟨⟨-, h0, h5⟩, -⟩ :=
      parseLoop_ok_inv argv.length argv {} args le_rfl
        ⟨Or.inl rfl, by decide, by decide⟩ h
    exact ⟨h0, h5⟩
  · intro d n hd h0 h5
    have hv : optionLike d = false := parsePyInt_not_optionLike hd
    have ha2 : applyOpt { celsius := some (.finite 25), fahrenheit := none, precision := 2 }
        .precision d =
        .ok { celsius := some (.finite 25), fahrenheit := none, precision := n } := by
      simp only [applyOpt, hd]
      rw [if_pos ⟨h0, h5⟩]
    unfold parse_arguments
    rw [parseLoop_consume_ok (by with_unfolding_all decide) (by with_unfolding_all decide)
      (by with_unfolding_all rfl :
        applyOpt {} .celsius "25" =
          .ok { celsius := some (.finite 25), fahrenheit := none, precision := 2 })]
    rw [parseLoop_consume_ok (by with_unfolding_all decide) hv ha2]
    exact parseLoop_nil_done (by simp)
  · with_unfolding_all decide
  · with_unfolding_all decide
  · with_unfolding_all decide
  · with_unfolding_all decide

theorem c6_precision_range_witness :
    parse_arguments ["-c", "25", "-p", "3"] =
      .ok { celsius := some (.finite 25), fahrenheit := none, precision := 3 } :=
  c6_precision_range.2.1 "3" 3 (by with_unfolding_all decide) (by decide) (by decide)

/-- C7: for every successfully parsed request the conversion-and-format
pipeline is total — `main` prints the formatted line and exits 0, and the
`except ValueError` handler (which would print `Error: <e>` and exit 1)
is unreachable: the try-block body never returns that exception. -/
theorem c7_no_value_error :
    (∀ (argv : List String) (args : Args), parse_arguments argv = .ok args →
      runMain argv = (dispatch args, 0)) ∧
    (∀ (args : Args) (m : String), mainBody args ≠ .error (.valueError m)) := by
  constructor
  · intro argv args h
    unfold runMain
    rw [h]
    rfl
  · intro args m
    simp [mainBody]

theorem c7_no_value_error_witness :
    runMain ["-c", "25"] =
      (dispatch { celsius := some (.finite 25), fahrenheit := none, precision := 2 }, 0) :=
  c7_no_value_error.1 ["-c", "25"]
    { celsius := some (.finite 25), fahrenheit := none, precision := 2 }
    (by with_unfolding_all decide)

/-- C10: the parser does not restrict temperatures to finite values —
`inf`, `nan` (and, through the attached `--celsius=-inf` form, `-inf`)
are accepted without a usage error and flow into the conversion
formulas; in general every string accepted by float parsing that argparse
can consume as a value is accepted as a TEMPERATURE. -/
theorem c10_nonfinite_accepted :
    parse_arguments ["-c", "inf"] =
      .ok { celsius := some .inf, fahrenheit := none, precision := 2 } ∧
    parse_arguments ["-c", "nan"] =
      .ok { celsius := some .nan, fahrenheit := none, precision := 2 } ∧
    parse_arguments ["--celsius=-inf"] =
      .ok { celsius := some .negInf, fahrenheit := none, precision := 2 } ∧
    runMain ["-c", "inf"] = ("inf°C = inf°F", 0) ∧
    (∀ (s : String) (v : PyFloat), parsePyFloat s = some v → optionLike s = false →
      parse_arguments ["-c", s] =
        .ok { celsius := some v, fahrenheit := none, precision := 2 }) := by
  refine ⟨by with_unfolding_all decide, by with_unfolding_all decide,
    by with_unfolding_all decide, by with_unfolding_all decide, ?_⟩
  intro s v hs hv
  have ha : applyOpt {} .celsius s =
      .ok { celsius := some v, fahrenheit := none, precision := 2 } := by
    simp only [applyOpt]
    rw [hs]
    simp
  unfold parse_arguments
  rw [parseLoop_consume_ok (by with_unfolding_all decide) hv ha]
  exact parseLoop_nil_done (by simp)

theorem c10_nonfinite_accepted_witness :
    parse_arguments ["-c", "3.5"] =
      .ok { celsius := some (.finite (7 / 2)), fahrenheit := none, precision := 2 } :=
  c10_nonfinite_accepted.2.2.2.2 "3.5" (.finite (7 / 2))
    (by with_unfolding_all decide) (by with_unfolding_all decide)

end Converterr

example : Converterr.parsePyFloat "25" = some (.finite 25) := by
  with_unfolding_all decide
example : Converterr.parsePyFloat "3.5" = some (.finite (7 / 2)) := by
  with_unfolding_all decide
example : Converterr.parsePyFloat "-inf" = some .negInf := by
  with_unfolding_all decide
example : Converterr.parsePyFloat "NaN" = some .nan := by
  with_unfolding_all decide
example : Converterr.parsePyFloat "1e2" = some (.finite 100) := by
  with_unfolding_all decide
example : Converterr.parsePyFloat "abc" = none := by with_unfolding_all decide
example : Converterr.parsePyInt "-1" = some (-1) := by with_unfolding_all decide
example : Converterr.parsePyInt "6" = some 6 := by with_unfolding_all decide
example : Converterr.parsePyInt "abc" = none := by with_unfolding_all decide
example :
    Converterr.parse_arguments ["-c", "25"] =
      .ok { celsius := some (.finite 25), fahrenheit := none, precision := 2 } := by
  with_unfolding_all decide
example :
    Converterr.parse_arguments ["-c", "25", "-f", "10"] =
      .usageError "argument -f/--fahrenheit: not allowed with argument -c/--celsius" := by
  with_unfolding_all decide
example :
    Converterr.parse_arguments [] =
      .usageError "one of the arguments -c/--celsius -f/--fahrenheit is required" := by
  with_unfolding_all decide
example :
    Converterr.parse_arguments ["--celsius=-inf"] =
      .ok { celsius := some .negInf, fahrenheit := none, precision := 2 } := by
  with_unfolding_all decide
example :
    Converterr.parse_arguments ["-c", "25", "-p", "6"] =
      .usageError "argument -p/--precision: invalid choice: 6" := by
  with_unfolding_all decide
example : Converterr.parse_arguments ["-h"] = .helpRequested := by
  with_unfolding_all decide
example :
    Converterr.parse_arguments ["-c"] =
      .usageError "argument -c/--celsius: expected one argument" := by
  with_unfolding_all decide
example :
    Converterr.parse_arguments ["-c", "-5"] =
      .ok { celsius := some (.finite (-5)), fahrenheit := none, precision := 2 } := by
  with_unfolding_all decide
